import Mathlib

/-!
Verification of the Titanic A/B testing experiment controller (src/app.py).

The program is a single-page Streamlit app. Its session state holds five
fields (`start_time`, `chart_displayed`, `selected_chart`, `answered`,
`elapsed_time`), initialized at lines 93-100, and is mutated only by three
button handlers:
  * "Show a chart" (lines 115-120),
  * "I answered your question" (lines 134-140),
  * "Go Back" (lines 148-156).
We embed the state as a structure, wall-clock timestamps (`time.time()`)
as rationals, and the random draw of `random.choice(['chart1','chart2'])`
as an explicit Boolean coin.  `elapsed_time` is absent from the session
state until the answered handler sets it and is deleted by Go Back; we
model absence as `none`.
-/

/-- The two chart identifiers `'chart1'` and `'chart2'` (line 118). -/
inductive Chart where
  | chart1
  | chart2
deriving DecidableEq, Repr, Fintype

/-- The Streamlit session state fields (lines 93-100 plus `elapsed_time`,
which is created at line 137 and deleted at line 155). -/
structure Session where
  start_time : Option ℚ
  chart_displayed : Bool
  selected_chart : Option Chart
  answered : Bool
  elapsed_time : Option ℚ
deriving DecidableEq, Repr

/-- Session state after the initialization block (lines 93-100): every field
at its default (`None`/`False`), and `elapsed_time` not yet created. -/
def initSession : Session :=
  { start_time := none
    chart_displayed := false
    selected_chart := none
    answered := false
    elapsed_time := none }

/-- The draw `random.choice(['chart1', 'chart2'])` (line 118), with the
underlying random draw made explicit as a fair coin. -/
def chooseChart (coin : Bool) : Chart :=
  if coin then Chart.chart1 else Chart.chart2

/-- The "Show a chart" handler (lines 115-120).  The button exists only when
`not st.session_state.chart_displayed` (line 115); clicking it records the
current wall-clock time, draws a chart and sets `chart_displayed`. -/
def showHandler (s : Session) (now : ℚ) (coin : Bool) : Session :=
  if s.chart_displayed = false then
    { s with
        start_time := some now
        selected_chart := some (chooseChart coin)
        chart_displayed := true }
  else s

/-- Python truthiness of `st.session_state.start_time` (line 136): `None`
and `0.0` are falsy, every other float is truthy. -/
def truthyTime : Option ℚ → Bool
  | none => false
  | some x => x ≠ 0

/-- The "I answered your question" handler (lines 134-140) together with
whether `st.error` was invoked (line 139).  The button exists only inside
the `chart_displayed and selected_chart` block (line 125) and when
`not answered` (line 134).  If `start_time` is truthy, `elapsed_time` is
set to `now - start_time` (line 137); otherwise an error is shown and no
elapsed time is recorded.  `answered` is set in both cases (line 140). -/
def answeredHandler (s : Session) (now : ℚ) : Session × Bool :=
  if s.chart_displayed = true ∧ s.selected_chart.isSome = true ∧ s.answered = false then
    match s.start_time with
    | some t0 =>
        if t0 ≠ 0 then
          ({ s with elapsed_time := some (now - t0), answered := true }, false)
        else
          ({ s with answered := true }, true)
    | none => ({ s with answered := true }, true)
  else (s, false)

/-- The state transition of the answered handler. -/
def markAnswered (s : Session) (now : ℚ) : Session :=
  (answeredHandler s now).1

/-- The "Go Back" handler (lines 148-156).  The button exists only inside
the `chart_displayed and selected_chart` block (line 125) and when
`answered` (line 143).  It resets every field to its default and deletes
`elapsed_time` (lines 150-155). -/
def goBackHandler (s : Session) : Session :=
  if s.chart_displayed = true ∧ s.selected_chart.isSome = true ∧ s.answered = true then
    { start_time := none
      chart_displayed := false
      selected_chart := none
      answered := false
      elapsed_time := none }
  else s

/-- The `Showing` state of the spec's state machine: chart visible and
unanswered.  These are exactly the conditions under which the UI offers the
"I answered your question" button (lines 125 and 134). -/
def Showing (s : Session) : Prop :=
  s.chart_displayed = true ∧ s.selected_chart.isSome = true ∧ s.answered = false

/-- The `Answered` state of the spec's state machine: chart visible and
answered.  These are exactly the conditions under which the UI offers the
"Go Back" button (lines 125 and 143). -/
def Answered (s : Session) : Prop :=
  s.chart_displayed = true ∧ s.selected_chart.isSome = true ∧ s.answered = true

instance (s : Session) : Decidable (Showing s) := by
  unfold Showing; infer_instance

instance (s : Session) : Decidable (Answered s) := by
  unfold Answered; infer_instance

/-- One row of the Titanic dataset as the charts consume it: `pclass`
(ordinal 1-3), `sex` (categorical) and `survived` (0/1). -/
structure Row where
  pclass : ℕ
  sex : String
  survived : ℕ
deriving DecidableEq, Repr

/-- A tabular dataset of passenger rows. -/
abbrev Dataset := List Row

/-- The function `load_data` (lines 41-53).  The remote read
`conn.read()` (lines 45-47) is an external collaborator; we model its
outcome as `Except`: `ok` when it yields a dataset, `error` when any
exception is raised.  The fallback `sns.load_dataset('titanic')` (line 52)
is likewise external and modelled as a given dataset.  The Boolean result
records whether the `st.warning` fallback signal (lines 50-51) was
emitted; `st.success` (line 48) is emitted exactly otherwise. -/
def load_data (primary : Except String Dataset) (fallback : Dataset) :
    Dataset × Bool :=
  match primary with
  | .ok d => (d, false)
  | .error _ => (fallback, true)

/-- A user action, with the random draw of the show action explicit. -/
inductive Event where
  | showChart (coin : Bool)
  | answer
  | goBack
deriving DecidableEq, Repr

/-- One button click at wall-clock time `now`. -/
def stepAt (s : Session) (e : Event) (now : ℚ) : Session :=
  match e with
  | .showChart coin => showHandler s now coin
  | .answer => markAnswered s now
  | .goBack => goBackHandler s

/-- Reachability: `Reach t s` says the session state `s` arises from the
freshly initialized state through button clicks whose wall-clock times are
nondecreasing and at most `t`. -/
inductive Reach : ℚ → Session → Prop where
  | init : ∀ t, Reach t initSession
  | step : ∀ {t s} (t' : ℚ) (e : Event), Reach t s → t ≤ t' → Reach t' (stepAt s e t')

/-- The answered handler writes only `elapsed_time` and `answered`; the
remaining three fields are untouched on every branch. -/
lemma answeredHandler_frame (s : Session) (now : ℚ) :
    (answeredHandler s now).1.start_time = s.start_time ∧
    (answeredHandler s now).1.selected_chart = s.selected_chart ∧
    (answeredHandler s now).1.chart_displayed = s.chart_displayed := by
  unfold answeredHandler
  split
  · split
    · split <;> simp
    · simp
  · simp

/-- The inductive invariant of the session state machine: the chart/display
linkage, the elapsed/answered linkage, the recorded start time never exceeds
the current clock, and any recorded elapsed time is nonnegative. -/
def GoodState (t : ℚ) (s : Session) : Prop :=
  s.selected_chart.isSome = s.chart_displayed ∧
  (s.elapsed_time ≠ none → s.answered = true) ∧
  (∀ t0, s.start_time = some t0 → t0 ≤ t) ∧
  (∀ e, s.elapsed_time = some e → 0 ≤ e)

lemma goodState_mono {t t' : ℚ} {s : Session} (h : GoodState t s) (htt : t ≤ t') :
    GoodState t' s :=
  ⟨h.1, h.2.1, fun t0 h0 => (h.2.2.1 t0 h0).trans htt, h.2.2.2⟩

lemma goodState_init (t : ℚ) : GoodState t initSession := by
  refine ⟨rfl, ?_, ?_, ?_⟩ <;> simp [initSession]

lemma goodState_show {t t' : ℚ} {s : Session} (h : GoodState t s) (htt : t ≤ t')
    (coin : Bool) : GoodState t' (showHandler s t' coin) := by
  unfold showHandler
  split
  · exact ⟨rfl, h.2.1, fun t0 h0 => by simp at h0; simp [h0], h.2.2.2⟩
  · exact goodState_mono h htt

lemma goodState_answer {t t' : ℚ} {s : Session} (h : GoodState t s) (htt : t ≤ t') :
    GoodState t' (markAnswered s t') := by
  unfold markAnswered answeredHandler
  split
  · split
    · next t0 hst =>
      split
      · refine ⟨h.1, fun _ => rfl, fun u hu => (h.2.2.1 u hu).trans htt, ?_⟩
        intro e he
        simp at he
        have ht0 : t0 ≤ t' := (h.2.2.1 t0 hst).trans htt
        simpa [← he] using sub_nonneg.mpr ht0
      · exact ⟨h.1, fun _ => rfl, fun u hu => (h.2.2.1 u hu).trans htt, h.2.2.2⟩
    · exact ⟨h.1, fun _ => rfl, fun u hu => (h.2.2.1 u hu).trans htt, h.2.2.2⟩
  · exact goodState_mono h htt

lemma goodState_goBack {t t' : ℚ} {s : Session} (h : GoodState t s) (htt : t ≤ t') :
    GoodState t' (goBackHandler s) := by
  unfold goBackHandler
  split
  · exact ⟨rfl, by simp, by simp, by simp⟩
  · exact goodState_mono h htt

/-- Every reachable session state satisfies the inductive invariant. -/
lemma reach_goodState {t : ℚ} {s : Session} (h : Reach t s) : GoodState t s := by
  induction h with
  | init t => exact goodState_init t
  | step t' e _ htt ih =>
      cases e with
      | showChart coin => exact goodState_show ih htt coin
      | answer => exact goodState_answer ih htt
      | goBack => exact goodState_goBack ih htt

/-- A sample `Showing` state with a nonzero recorded start time. -/
def sShow100 : Session :=
  { start_time := some 100, chart_displayed := true,
    selected_chart := some Chart.chart1, answered := false, elapsed_time := none }

/-- A sample `Showing` state with no recorded start time (the defensive
case of line 138). -/
def sShowNone : Session :=
  { start_time := none, chart_displayed := true,
    selected_chart := some Chart.chart1, answered := false, elapsed_time := none }

/-- A sample `Showing` state whose recorded start time is exactly `0.0`. -/
def sShowZero : Session :=
  { start_time := some 0, chart_displayed := true,
    selected_chart := some Chart.chart2, answered := false, elapsed_time := none }

/-- A sample `Answered` state. -/
def sAns : Session :=
  { start_time := some 100, chart_displayed := true,
    selected_chart := some Chart.chart2, answered := true, elapsed_time := some 4 }

/-- C1: from the Idle default state, `show()` at wall-clock time `t` moves
the session to `Showing` with `startTime = t` and the selected chart one of
exactly the two identifiers; `markAnswered()` at time `tAns` then records
`elapsedSeconds = tAns - t` and moves to `Answered`; `reset()` then returns
the session to the exact default state.  The side condition `t ≠ 0` is the
Python truthiness test of line 136 (`time.time()` is never `0.0`); at `t = 0`
the defensive branch analysed in C9 fires instead. -/
theorem show_answer_reset_scenario (t tAns : ℚ) (coin : Bool) (ht : t ≠ 0) :
    Showing (showHandler initSession t coin) ∧
    (showHandler initSession t coin).start_time = some t ∧
    ((showHandler initSession t coin).selected_chart = some Chart.chart1 ∨
      (showHandler initSession t coin).selected_chart = some Chart.chart2) ∧
    (markAnswered (showHandler initSession t coin) tAns).elapsed_time
      = some (tAns - t) ∧
    Answered (markAnswered (showHandler initSession t coin) tAns) ∧
    goBackHandler (markAnswered (showHandler initSession t coin) tAns)
      = initSession := by
  have hshow : showHandler initSession t coin =
      { start_time := some t, chart_displayed := true,
        selected_chart := some (chooseChart coin), answered := false,
        elapsed_time := none } := rfl
  have hans : markAnswered (showHandler initSession t coin) tAns =
      { start_time := some t, chart_displayed := true,
        selected_chart := some (chooseChart coin), answered := true,
        elapsed_time := some (tAns - t) } := by
    rw [hshow]
    simp [markAnswered, answeredHandler, ht]
  refine ⟨?_, ?_, ?_, ?_, ?_, ?_⟩
  · rw [hshow]; exact ⟨rfl, rfl, rfl⟩
  · rw [hshow]
  · rw [hshow]; cases coin
    · right; rfl
    · left; rfl
  · rw [hans]
  · rw [hans]; exact ⟨rfl, rfl, rfl⟩
  · rw [hans]; rfl

/-- Witness for C1 at the spec's scenario: `t = 100.0`, `tAns = 103.5`. -/
theorem show_answer_reset_scenario_witness :
    (100 : ℚ) ≠ 0 ∧
    (Showing (showHandler initSession 100 true) ∧
      (showHandler initSession 100 true).start_time = some 100 ∧
      ((showHandler initSession 100 true).selected_chart = some Chart.chart1 ∨
        (showHandler initSession 100 true).selected_chart = some Chart.chart2) ∧
      (markAnswered (showHandler initSession 100 true) 103.5).elapsed_time
        = some (103.5 - 100) ∧
      Answered (markAnswered (showHandler initSession 100 true) 103.5) ∧
      goBackHandler (markAnswered (showHandler initSession 100 true) 103.5)
        = initSession) :=
  ⟨by decide, show_answer_reset_scenario 100 103.5 true (by decide)⟩

/-- C4: `load_data` is total (never raises past its boundary).  On a
successful remote read it returns that dataset with the warning signal off;
when the remote read raises, it returns the fallback dataset with the
warning signal on, instead of propagating the exception. -/
theorem load_data_total_fallback :
    (∀ (d fallback : Dataset), load_data (Except.ok d) fallback = (d, false)) ∧
    (∀ (e : String) (fallback : Dataset),
      load_data (Except.error e) fallback = (fallback, true)) :=
  ⟨fun _ _ => rfl, fun _ _ => rfl⟩

/-- C5: from every `Answered` state — whatever chart was shown and whether
or not an elapsed time was recorded — "Go Back" returns the session to the
exact default state: nullable fields cleared and booleans false. -/
theorem goBack_resets_to_default (s : Session) (h : Answered s) :
    goBackHandler s = initSession := by
  unfold Answered at h
  unfold goBackHandler
  rw [if_pos h]
  rfl

/-- Witness for C5 at a concrete `Answered` state. -/
theorem goBack_resets_to_default_witness :
    Answered sAns ∧ goBackHandler sAns = initSession :=
  ⟨by decide, goBack_resets_to_default sAns (by decide)⟩

/-- C3: calling the answered handler in `Showing` with `startTime` absent
reports an error (`st.error`, line 139), leaves `elapsedSeconds` without a
valid recorded value, and still sets `answered` (line 140); the handler is a
total function, so it never throws.  In every case — `startTime` present or
absent — `answered` is true afterwards. -/
theorem markAnswered_missing_start (s : Session) (now : ℚ) :
    (Showing s → s.start_time = none →
      (answeredHandler s now).2 = true ∧
      (answeredHandler s now).1.elapsed_time = s.elapsed_time ∧
      (answeredHandler s now).1.answered = true) ∧
    (Showing s → (markAnswered s now).answered = true) := by
  constructor
  · intro hs h0
    unfold Showing at hs
    unfold answeredHandler
    rw [if_pos hs, h0]
    exact ⟨rfl, rfl, rfl⟩
  · intro hs
    unfold Showing at hs
    unfold markAnswered answeredHandler
    rw [if_pos hs]
    rcases h0 : s.start_time with _ | t0
    · rfl
    · by_cases hz : t0 = 0 <;> simp [hz]

/-- Witness for C3 at a `Showing` state with no start time and at one with
start time `100`. -/
theorem markAnswered_missing_start_witness :
    Showing sShowNone ∧ sShowNone.start_time = none ∧
    ((answeredHandler sShowNone 5).2 = true ∧
      (answeredHandler sShowNone 5).1.elapsed_time = sShowNone.elapsed_time ∧
      (answeredHandler sShowNone 5).1.answered = true) ∧
    Showing sShow100 ∧ (markAnswered sShow100 104).answered = true :=
  ⟨by decide, rfl,
   (markAnswered_missing_start sShowNone 5).1 (by decide) rfl,
   by decide,
   (markAnswered_missing_start sShow100 104).2 (by decide)⟩

/-- C9: when `startTime` is present but equals exactly `0.0`, the truthiness
test `if st.session_state.start_time:` (line 136) is false, so the answered
handler takes the missing-start-time branch: it reports the error, sets
`answered`, and records no elapsed time. -/
theorem markAnswered_zero_start (s : Session) (now : ℚ) (hs : Showing s)
    (h0 : s.start_time = some 0) :
    answeredHandler s now = ({ s with answered := true }, true) := by
  unfold Showing at hs
  unfold answeredHandler
  rw [if_pos hs, h0]
  simp

/-- Witness for C9 at a `Showing` state whose start time is exactly `0`. -/
theorem markAnswered_zero_start_witness :
    Showing sShowZero ∧ sShowZero.start_time = some 0 ∧
    answeredHandler sShowZero 7 = ({ sShowZero with answered := true }, true) :=
  ⟨by decide, rfl, markAnswered_zero_start sShowZero 7 (by decide) rfl⟩

/-- C10: the answered handler leaves `startTime`, `selectedChart` and
`chartDisplayed` unchanged in every `Showing` state, on the normal branch
and on the missing-start-time branch alike. -/
theorem markAnswered_preserves_fields (s : Session) (now : ℚ)
    (_hs : Showing s) :
    (markAnswered s now).start_time = s.start_time ∧
    (markAnswered s now).selected_chart = s.selected_chart ∧
    (markAnswered s now).chart_displayed = s.chart_displayed :=
  answeredHandler_frame s now

/-- Witness for C10 on both branches: a `Showing` state with a truthy start
time and one with no start time. -/
theorem markAnswered_preserves_fields_witness :
    Showing sShow100 ∧
    ((markAnswered sShow100 104).start_time = sShow100.start_time ∧
      (markAnswered sShow100 104).selected_chart = sShow100.selected_chart ∧
      (markAnswered sShow100 104).chart_displayed = sShow100.chart_displayed) ∧
    Showing sShowNone ∧
    ((markAnswered sShowNone 104).start_time = sShowNone.start_time ∧
      (markAnswered sShowNone 104).selected_chart = sShowNone.selected_chart ∧
      (markAnswered sShowNone 104).chart_displayed = sShowNone.chart_displayed) :=
  ⟨by decide, markAnswered_preserves_fields sShow100 104 (by decide),
   by decide, markAnswered_preserves_fields sShowNone 104 (by decide)⟩

/-- The chart/display linkage invariant of the data model. -/
def chartInv (s : Session) : Prop :=
  s.selected_chart ≠ none ↔ s.chart_displayed = true

instance (s : Session) : Decidable (chartInv s) := by
  unfold chartInv; infer_instance

/-- C2: in every reachable session state, `selectedChart` is non-null iff
`chartDisplayed` is true; the invariant holds initially and each of the
three handlers preserves it. -/
theorem chart_display_invariant :
    chartInv initSession ∧
    (∀ (s : Session) (now : ℚ) (coin : Bool),
      chartInv s → chartInv (showHandler s now coin)) ∧
    (∀ (s : Session) (now : ℚ), chartInv s → chartInv (markAnswered s now)) ∧
    (∀ s : Session, chartInv s → chartInv (goBackHandler s)) ∧
    (∀ (t : ℚ) (s : Session), Reach t s → chartInv s) := by
  refine ⟨by decide, ?_, ?_, ?_, ?_⟩
  · intro s now coin h
    unfold showHandler
    split
    · unfold chartInv
      simp
    · exact h
  · intro s now h
    have hf := answeredHandler_frame s now
    unfold chartInv markAnswered
    rw [hf.2.1, hf.2.2]
    exact h
  · intro s h
    unfold goBackHandler
    split
    · unfold chartInv
      simp
    · exact h
  · intro t s hr
    have hg := (reach_goodState hr).1
    unfold chartInv
    rw [Option.ne_none_iff_isSome, hg]

/-- Witness for C2: the invariant after each handler at concrete states,
and at a concretely reachable state. -/
theorem chart_display_invariant_witness :
    chartInv (showHandler initSession 100 true) ∧
    chartInv (markAnswered sShow100 104) ∧
    chartInv (goBackHandler sAns) ∧
    chartInv (stepAt initSession (Event.showChart true) 100) :=
  ⟨chart_display_invariant.2.1 initSession 100 true (by decide),
   chart_display_invariant.2.2.1 sShow100 104 (by decide),
   chart_display_invariant.2.2.2.1 sAns (by decide),
   chart_display_invariant.2.2.2.2 100 _
     (Reach.step 100 (Event.showChart true) (Reach.init 100) le_rfl)⟩

/-- C6: in every reachable session state (button clicks happening at
nondecreasing wall-clock times), any recorded `elapsedSeconds` is
nonnegative; and whenever the answered handler runs in `Showing` with a
truthy recorded start time `t0`, it records exactly `now - t0`. -/
theorem elapsed_nonneg_eq_diff :
    (∀ (t : ℚ) (s : Session), Reach t s →
      ∀ e, s.elapsed_time = some e → 0 ≤ e) ∧
    (∀ (s : Session) (now t0 : ℚ), Showing s → s.start_time = some t0 →
      t0 ≠ 0 → (markAnswered s now).elapsed_time = some (now - t0)) := by
  constructor
  · intro t s hr e he
    exact (reach_goodState hr).2.2.2 e he
  · intro s now t0 hs h0 hne
    unfold Showing at hs
    unfold markAnswered answeredHandler
    rw [if_pos hs, h0]
    simp [hne]

/-- Witness for C6 at the trace show-at-100 then answer-at-104, and at a
direct call of the answered handler. -/
theorem elapsed_nonneg_eq_diff_witness :
    ((stepAt (stepAt initSession (Event.showChart true) 100) Event.answer
        104).elapsed_time = some (104 - 100 : ℚ)) ∧
    ((0 : ℚ) ≤ 104 - 100) ∧
    (markAnswered sShow100 104).elapsed_time = some (104 - 100 : ℚ) :=
  ⟨rfl,
   elapsed_nonneg_eq_diff.1 104 _
     (Reach.step 104 Event.answer
       (Reach.step 100 (Event.showChart true) (Reach.init 100) le_rfl)
       (by decide)) _ rfl,
   elapsed_nonneg_eq_diff.2 sShow100 104 100 (by decide) rfl (by decide)⟩

/-- The elapsed/answered linkage invariant of the data model. -/
def elapsedInv (s : Session) : Prop :=
  s.elapsed_time ≠ none → s.answered = true

instance (s : Session) : Decidable (elapsedInv s) := by
  unfold elapsedInv; infer_instance

/-- C7: in every reachable session state, `elapsedSeconds` is non-null only
if `answered` is true; the answered handler and Go Back preserve the
invariant, and Go Back clears `elapsedSeconds` together with `answered`. -/
theorem elapsed_answered_invariant :
    (∀ (t : ℚ) (s : Session), Reach t s → elapsedInv s) ∧
    (∀ (s : Session) (now : ℚ), elapsedInv s → elapsedInv (markAnswered s now)) ∧
    (∀ s : Session, elapsedInv s → elapsedInv (goBackHandler s)) ∧
    (∀ s : Session, Answered s →
      (goBackHandler s).elapsed_time = none ∧ (goBackHandler s).answered = false) := by
  refine ⟨?_, ?_, ?_, ?_⟩
  · intro t s hr
    exact (reach_goodState hr).2.1
  · intro s now h
    unfold elapsedInv markAnswered answeredHandler
    split
    · split
      · split <;> simp
      · simp
    · exact h
  · intro s h
    unfold elapsedInv goBackHandler
    split
    · simp
    · exact h
  · intro s h
    unfold Answered at h
    unfold goBackHandler
    rw [if_pos h]
    exact ⟨rfl, rfl⟩

/-- Witness for C7 at a concretely reachable state, at concrete handler
calls, and at a concrete `Answered` state for the clearing clause. -/
theorem elapsed_answered_invariant_witness :
    elapsedInv (stepAt initSession (Event.showChart true) 100) ∧
    elapsedInv (markAnswered sShow100 104) ∧
    elapsedInv (goBackHandler sAns) ∧
    ((goBackHandler sAns).elapsed_time = none ∧
      (goBackHandler sAns).answered = false) :=
  ⟨elapsed_answered_invariant.1 100 _
     (Reach.step 100 (Event.showChart true) (Reach.init 100) le_rfl),
   elapsed_answered_invariant.2.1 sShow100 104 (by decide),
   elapsed_answered_invariant.2.2.1 sAns (by decide),
   elapsed_answered_invariant.2.2.2 sAns (by decide)⟩

/-- C8: the show handler picks the displayed chart from exactly the two
chart identifiers via `random.choice(['chart1','chart2'])` (line 118).  With
the library draw modelled as a fair coin, each identifier is taken by
exactly one of the two equiprobable coin values (so the two outcomes are
50/50), the chart type has exactly two inhabitants (no third outcome), and
whenever the handler changes the state at all it stores the drawn chart. -/
theorem chart_choice_two_uniform :
    (∀ (s : Session) (now : ℚ) (coin : Bool),
      (showHandler s now coin).selected_chart = some (chooseChart coin) ∨
        showHandler s now coin = s) ∧
    (∀ coin, chooseChart coin = Chart.chart1 ∨ chooseChart coin = Chart.chart2) ∧
    (Finset.univ.filter (fun c : Bool => chooseChart c = Chart.chart1)).card = 1 ∧
    (Finset.univ.filter (fun c : Bool => chooseChart c = Chart.chart2)).card = 1 ∧
    (Finset.univ : Finset Bool).card = 2 ∧
    (Finset.univ : Finset Chart).card = 2 := by
  refine ⟨?_, ?_, by decide, by decide, by decide, by decide⟩
  · intro s now coin
    unfold showHandler
    split
    · left; rfl
    · right; rfl
  · intro coin
    cases coin
    · right; rfl
    · left; rfl
